import Mathlib

/-!
Verification of the git-repository MCP server (`gitrepo_server.py`).

Python strings are modelled as `List Char` (`Str`); each definition below is a
direct transcription of the corresponding Python function, with the filesystem
and the spawned subprocess abstracted into explicit parameters:

* `pyStrip`, `pySplit`, `escapeQuotes`, `removeDotDot`, `pyParseInt` model the
  Python string primitives `str.strip()`, `str.split()`, `str.replace('"','\\"')`,
  `str.replace('..','')` and `int(...)` used by the source (ASCII whitespace and
  ASCII digits; the source only feeds them caller-supplied ASCII arguments).
* `pyJoin`, `pathStrOf`, `posixResolve` model `pathlib.PurePosixPath`
  construction, `/`-joining and `Path.resolve(strict=False)` on a symlink-free
  POSIX filesystem, where resolution is purely lexical and never raises.
* `FS` abstracts the filesystem queries `os.path.isdir` and `Path.exists`;
  `GitOutcome` abstracts what `subprocess.run` did.
* `run_git_command` returns the reported text together with the argument vector
  of the spawned process (`none` when no process was spawned).
-/

abbrev Str := List Char

/-- Python `str.isspace` characters relevant to `str.strip()` (ASCII subset). -/
def isPySpace (c : Char) : Bool :=
  c = ' ' || c = '\t' || c = '\n' || c = '\r' || c = '\x0b' || c = '\x0c'

/-- Python `s.strip()`: drop leading and trailing whitespace. -/
def pyStrip (s : Str) : Str :=
  ((s.dropWhile isPySpace).reverse.dropWhile isPySpace).reverse

/-- Accumulator loop of `pySplit`; `acc` holds the current token reversed. -/
def pySplitAux (acc : Str) : Str → List Str
  | [] => if acc = [] then [] else [acc.reverse]
  | c :: cs =>
    if isPySpace c then
      if acc = [] then pySplitAux [] cs else acc.reverse :: pySplitAux [] cs
    else pySplitAux (c :: acc) cs

/-- Python `s.split()` (no separator): split on whitespace runs, no empty tokens. -/
def pySplit (s : Str) : List Str := pySplitAux [] s

/-- The character class removed by `re.sub(r'[;&|\x60$()\x7b\x7d]', '', path)`
    in `sanitize_path` (shell metacharacters). -/
def metachars : Str := ";&|\x60$()\x7b\x7d".toList

/-- Python `s.replace('..', '')`: one left-to-right non-overlapping pass. -/
def removeDotDot : Str → Str
  | [] => []
  | '.' :: '.' :: rest => removeDotDot rest
  | c :: rest => c :: removeDotDot rest

/-- Python `s.replace('"', '\\"')` from `repo_search` (single-character
    pattern, so a left-to-right character map). -/
def escapeQuotes : Str → Str
  | [] => []
  | c :: rest => if c = '"' then '\\' :: '"' :: escapeQuotes rest else c :: escapeQuotes rest

/-- `sanitize_path` (gitrepo_server.py lines 31-42): reject blank input, strip
    whitespace, delete shell metacharacters, delete `..` substrings. -/
def sanitize_path (path : Str) : Str :=
  if pyStrip path = [] then []
  else removeDotDot ((pyStrip path).filter (fun c => !(metachars.contains c)))

/-- Number of leading `/` characters (decides the POSIX anchor of a path). -/
def leadSlashCount (s : Str) : Nat := (s.takeWhile (fun c => c == '/')).length

/-- The anchor (`root`) of a `PurePosixPath`: `//` for exactly two leading
    slashes (POSIX special case), `/` for one or three-plus, empty otherwise. -/
def anchorOf (s : Str) : Str :=
  if leadSlashCount s = 2 then ['/', '/']
  else if 1 ≤ leadSlashCount s then ['/'] else []

/-- Split on `/` keeping empty pieces (they are filtered by `segsOf`). -/
def splitOnSlashAux (acc : Str) : Str → List Str
  | [] => [acc.reverse]
  | c :: cs => if c = '/' then acc.reverse :: splitOnSlashAux [] cs else splitOnSlashAux (c :: acc) cs

def splitOnSlash (s : Str) : List Str := splitOnSlashAux [] s

/-- The segments of a `PurePosixPath`: `/`-separated pieces with empty pieces
    and `.` pieces dropped (as `pathlib` does at construction). -/
def segsOf (s : Str) : List Str :=
  (splitOnSlash s).filter (fun seg => decide (seg ≠ [] ∧ seg ≠ ['.']))

def joinSlash : List Str → Str
  | [] => []
  | [s] => s
  | s :: t :: rest => s ++ '/' :: joinSlash (t :: rest)

/-- `str()` of a `PurePosixPath` with the given anchor and segments. -/
def pathStrOf (anchor : Str) (segs : List Str) : Str :=
  if anchor = [] ∧ segs = [] then ['.'] else anchor ++ joinSlash segs

/-- `str(PurePosixPath(s))`: parse and re-render (normalizes `//`, `.`). -/
def pyPathOfStr (s : Str) : Str := pathStrOf (anchorOf s) (segsOf s)

/-- `str(Path(base) / child)`: an anchored child discards `base` entirely. -/
def pyJoin (base child : Str) : Str :=
  if 1 ≤ leadSlashCount child then pyPathOfStr child
  else pathStrOf (anchorOf base) (segsOf base ++ segsOf child)

/-- Lexical `..` elimination of `Path.resolve`: `acc` is the reversed stack of
    kept segments; `..` pops (and is dropped at the root, as on POSIX). -/
def resolveSegs (acc : List Str) : List Str → List Str
  | [] => acc.reverse
  | seg :: rest =>
    if seg = ['.', '.'] then resolveSegs (acc.drop 1) rest
    else resolveSegs (seg :: acc) rest

/-- `Path(s).resolve()` (`strict=False`) on a symlink-free POSIX filesystem for
    absolute paths: purely lexical and total, hence never raises (`some`). -/
def posixResolve (s : Str) : Option Str :=
  some (pathStrOf (anchorOf s) (resolveSegs [] (segsOf s)))

/-- `get_repo_path` (gitrepo_server.py lines 44-66), parametrized by the
    canonicalization function `resolve` (the behaviour of `Path.resolve()` on
    the ambient filesystem; `none` models a raised exception, caught by the
    source's `except` clause) and by the configured `REPOS_BASE_PATH`. -/
def get_repo_path (resolve : Str → Option Str) (base : Str) (repo_name : Str) : Str :=
  if pyStrip repo_name = [] then []
  else if sanitize_path repo_name = [] then []
  else
    match resolve (pyJoin base (sanitize_path repo_name)), resolve (pyPathOfStr base) with
    | some repo_path, some base_path =>
      if base_path.isPrefixOf repo_path = true then repo_path else []
    | _, _ => []

/-- Descendant-or-equal, segment-wise: `p` lies at or below `root`. (The
    spec's "descendant of the configured root", read as generously as
    possible: the weaker this is to refute, the stronger the refutation.) -/
def isDescendantOf (p root : Str) : Bool :=
  anchorOf p = anchorOf root && (segsOf root).isPrefixOf (segsOf p)

/-- `MAX_OUTPUT_LENGTH` (line 26). -/
def MAX_OUTPUT_LENGTH : Nat := 10000

/-- `GIT_TIMEOUT` (line 27). -/
def GIT_TIMEOUT : Nat := 30

/-- The marker appended by lines 90-91 of `run_git_command`. -/
def outputTruncMarker (n : Nat) : Str :=
  "\n\n... [Output truncated. Total: ".toList ++ (toString n).toList ++ " chars]".toList

/-- Lines 90-91 of `run_git_command`: in-executor output bounding. -/
def truncate_captured (output : Str) : Str :=
  if output.length > MAX_OUTPUT_LENGTH then
    output.take MAX_OUTPUT_LENGTH ++ outputTruncMarker output.length
  else output

/-- The marker appended by `truncate_output` (line 107). -/
def truncatedFromMarker (n : Nat) : Str :=
  "\n\n... [Truncated from ".toList ++ (toString n).toList ++ " chars]".toList

/-- `truncate_output` (gitrepo_server.py lines 104-108). -/
def truncate_output (output : Str) : Str :=
  if output.length > MAX_OUTPUT_LENGTH then
    output.take MAX_OUTPUT_LENGTH ++ truncatedFromMarker output.length
  else output

/-- The filesystem queries `run_git_command` makes: `os.path.isdir` and
    `Path.exists`. -/
structure FS where
  isDir : Str → Bool
  pathExists : Str → Bool

/-- What `subprocess.run` did: completed with an exit status and captured
    streams, raised `TimeoutExpired`, or failed to spawn at all (the generic
    `except Exception` branch). -/
inductive GitOutcome where
  | completed (returncode : Int) (stdout stderr : Str)
  | timedOut
  | spawnFailed (message : Str)

/-- `run_git_command` (gitrepo_server.py lines 68-102). Returns the reported
    text and `some argv` for the spawned process (`none` if none was spawned).
    `cmd = ["git", "-C", repo_path] + args.split()` is line 79. -/
def run_git_command (fs : FS) (repo_path : Str) (args : Str) (timeout : Nat)
    (outcome : GitOutcome) : Str × Option (List Str) :=
  if repo_path = [] ∨ fs.isDir repo_path = false then
    ("❌ Error: Invalid repository path".toList, none)
  else if fs.pathExists (pyJoin repo_path ".git".toList) = false then
    ("❌ Error: Not a git repository".toList, none)
  else
    let cmd := "git".toList :: "-C".toList :: repo_path :: pySplit args
    match outcome with
    | .completed rc stdout stderr =>
      let output := if stdout ≠ [] then stdout else stderr
      let output := truncate_captured output
      if rc = 0 then
        (if pyStrip output ≠ [] then output else "✅ Command completed successfully".toList,
         some cmd)
      else
        ("⚠️ Git command completed with status ".toList ++ (toString rc).toList
           ++ ":\n".toList ++ output, some cmd)
    | .timedOut =>
      ("⏱️ Command timed out after ".toList ++ (toString timeout).toList
         ++ " seconds".toList, some cmd)
    | .spawnFailed message =>
      ("❌ Error executing git command: ".toList ++ message, none)

/-- Value of an ASCII digit. -/
def charDigitVal (c : Char) : Nat := c.toNat - 48

/-- Digit/underscore tail of a Python integer literal: underscores must sit
    between digits (`int("1_0") = 10`, `int("1__0")` and `int("1_")` raise). -/
def puAux : Nat → Str → Option Nat
  | acc, [] => some acc
  | acc, c :: cs =>
    if c.isDigit then puAux (10 * acc + charDigitVal c) cs
    else if c = '_' then
      match cs with
      | [] => none
      | d :: cs' => if d.isDigit then puAux (10 * acc + charDigitVal d) cs' else none
    else none

/-- Unsigned decimal body accepted by Python `int` (ASCII digits). -/
def parseUnsigned : Str → Option Nat
  | [] => none
  | c :: cs => if c.isDigit then puAux (charDigitVal c) cs else none

/-- Python `int(s)` on ASCII input: surrounding whitespace, optional sign,
    decimal digits with underscores between digits; `none` models `ValueError`. -/
def pyParseInt (s : Str) : Option Int :=
  match pyStrip s with
  | '+' :: rest => (parseUnsigned rest).map (fun n => (n : Int))
  | '-' :: rest => (parseUnsigned rest).map (fun n => -(n : Int))
  | rest => (parseUnsigned rest).map (fun n => (n : Int))

/-- Limit normalization of `repo_log` (lines 171-176): blank defaults to 10,
    `ValueError` defaults to 10, values outside [1,100] reset to 10. -/
def repo_log_limit (limit : Str) : Int :=
  match (if pyStrip limit = [] then some (10 : Int) else pyParseInt limit) with
  | none => 10
  | some n => if n < 1 ∨ n > 100 then 10 else n

/-- Limit normalization of `repo_file_history` (lines 306-311); textually the
    same computation as in `repo_log`. -/
def repo_file_history_limit (limit : Str) : Int :=
  match (if pyStrip limit = [] then some (10 : Int) else pyParseInt limit) with
  | none => 10
  | some n => if n < 1 ∨ n > 100 then 10 else n

/-- The git argument string built by `repo_log` (line 178):
    `f"log --oneline -n {limit_int}"`. -/
def repo_log_args (limit : Str) : Str :=
  "log --oneline -n ".toList ++ (toString (repo_log_limit limit)).toList

/-- The git argument string built by `repo_file_history` (line 313):
    `f"log --oneline -n {limit_int} -- {sanitized_file}"`. -/
def repo_file_history_args (limit file_path : Str) : Str :=
  "log --oneline -n ".toList ++ (toString (repo_file_history_limit limit)).toList
    ++ " -- ".toList ++ sanitize_path file_path

/-- The character class kept by `re.sub(r'[^a-fA-F0-9]', '', ...)` in
    `repo_show_commit` (line 279). -/
def isHexChar (c : Char) : Bool :=
  c.isDigit || ('a' ≤ c && c ≤ 'f') || ('A' ≤ c && c ≤ 'F')

/-- `repo_show_commit` (gitrepo_server.py lines 263-285): full handler, with
    the filesystem and subprocess outcome abstracted as in `run_git_command`.
    Returns the response text and the spawned argv (`none` when git was
    never invoked). -/
def repo_show_commit (resolve : Str → Option Str) (base : Str) (fs : FS)
    (outcome : GitOutcome) (repo_name commit_hash : Str) : Str × Option (List Str) :=
  if pyStrip repo_name = [] then ("❌ Error: Repository name is required".toList, none)
  else if pyStrip commit_hash = [] then ("❌ Error: Commit hash is required".toList, none)
  else if get_repo_path resolve base repo_name = [] then
    ("❌ Error: Invalid repository name".toList, none)
  else if (pyStrip commit_hash).filter isHexChar = [] then
    ("❌ Error: Invalid commit hash format".toList, none)
  else
    let sanitized_hash := (pyStrip commit_hash).filter isHexChar
    let r := run_git_command fs (get_repo_path resolve base repo_name)
      ("show ".toList ++ sanitized_hash) GIT_TIMEOUT outcome
    ("📝 Commit ".toList ++ sanitized_hash ++ " in ".toList ++ repo_name
       ++ ":\n\n".toList ++ r.1, r.2)

/-- The grep argument string built by `repo_search` (lines 332-335):
    `f'grep -n "{escaped_term}"'` with only double quotes escaped. -/
def repo_search_args (search_term : Str) : Str :=
  "grep -n \"".toList ++ escapeQuotes (pyStrip search_term) ++ ['"']

/-- The token list `repo_search`'s argument string becomes on line 79
    (`args.split()`), i.e. what is appended to `["git", "-C", path]`. -/
def repo_search_tokens (search_term : Str) : List Str :=
  pySplit (repo_search_args search_term)

/-- Substring test for `..` (the premise of the traversal claims). -/
def containsDotDot : Str → Bool
  | '.' :: '.' :: _ => true
  | _ :: cs => containsDotDot cs
  | [] => false

/-- The all-false filesystem: nothing exists. -/
def fsAllFalse : FS := ⟨fun _ => false, fun _ => false⟩

/-- The all-true filesystem: every path is a directory and exists. -/
def fsAllTrue : FS := ⟨fun _ => true, fun _ => true⟩

/-!
Helper lemmas (shared between claim theorems).
-/

/-- `pyStrip` of the empty string is empty. -/
theorem pyStrip_nil : pyStrip ([] : Str) = [] := rfl

/-- A string with a non-blank strip is itself non-empty. -/
theorem ne_nil_of_pyStrip_ne_nil (s : Str) (h : pyStrip s ≠ []) : s ≠ [] := by
  intro hs
  apply h
  rw [hs, pyStrip_nil]

/-- Output within the cap is left unmodified by the executor's bounding. -/
theorem truncate_captured_short (out : Str) (h : out.length ≤ MAX_OUTPUT_LENGTH) :
    truncate_captured out = out := by
  rw [truncate_captured, if_neg (by omega)]

/-- Output within the cap is left unmodified by `truncate_output`. -/
theorem truncate_output_short (out : Str) (h : out.length ≤ MAX_OUTPUT_LENGTH) :
    truncate_output out = out := by
  rw [truncate_output, if_neg (by omega)]

/-- Any accepted `get_repo_path` result passed the line-61 guard: the resolved
    base string is a prefix of it. -/
theorem get_repo_path_accept (resolve : Str → Option Str) (base name : Str)
    (h : get_repo_path resolve base name ≠ []) :
    ∃ bp, resolve (pyPathOfStr base) = some bp ∧
      bp.isPrefixOf (get_repo_path resolve base name) = true := by
  by_cases h1 : pyStrip name = []
  · simp [get_repo_path, h1] at h
  by_cases h2 : sanitize_path name = []
  · simp [get_repo_path, h1, h2] at h
  rcases hr : resolve (pyJoin base (sanitize_path name)) with _ | rp
  · simp [get_repo_path, h1, h2, hr] at h
  rcases hb : resolve (pyPathOfStr base) with _ | bp
  · simp [get_repo_path, h1, h2, hr, hb] at h
  by_cases hpre : bp.isPrefixOf rp = true
  · exact ⟨bp, rfl, by simp [get_repo_path, h1, h2, hr, hb, hpre]⟩
  · simp [get_repo_path, h1, h2, hr, hb, hpre] at h

/-- When the entry preconditions of `run_git_command` fail, it reports one of
    the two structured errors and records no spawned process. -/
theorem run_git_command_rejects (fs : FS) (repo_path args : Str) (t : Nat) (oc : GitOutcome)
    (h : repo_path = [] ∨ fs.isDir repo_path = false ∨
        fs.pathExists (pyJoin repo_path ".git".toList) = false) :
    (run_git_command fs repo_path args t oc).2 = none ∧
      ((run_git_command fs repo_path args t oc).1 = "❌ Error: Invalid repository path".toList ∨
       (run_git_command fs repo_path args t oc).1 = "❌ Error: Not a git repository".toList) := by
  rcases h with h | h | h
  · simp [run_git_command, h]
  · simp [run_git_command, h]
  · by_cases h0 : repo_path = [] ∨ fs.isDir repo_path = false
    · simp [run_git_command, h0]
    · unfold run_git_command
      rw [if_neg h0, if_pos h]
      simp

/-- When both entry preconditions hold and the process completed, the value of
    `run_git_command` is its completed branch, spelled out. -/
theorem run_git_command_completed (fs : FS) (path args : Str) (t : Nat) (rc : Int)
    (stdout stderr : Str) (hpath : path ≠ []) (hdir : fs.isDir path = true)
    (hgit : fs.pathExists (pyJoin path ".git".toList) = true) :
    run_git_command fs path args t (.completed rc stdout stderr) =
      if rc = 0 then
        (if pyStrip (truncate_captured (if stdout ≠ [] then stdout else stderr)) ≠ [] then
            truncate_captured (if stdout ≠ [] then stdout else stderr)
          else "✅ Command completed successfully".toList,
          some ("git".toList :: "-C".toList :: path :: pySplit args))
      else
        ("⚠️ Git command completed with status ".toList ++ (toString rc).toList
            ++ ":\n".toList ++ truncate_captured (if stdout ≠ [] then stdout else stderr),
          some ("git".toList :: "-C".toList :: path :: pySplit args)) := by
  unfold run_git_command
  rw [if_neg (show ¬(path = [] ∨ fs.isDir path = false) from by simp [hpath, hdir]),
    if_neg (show ¬(fs.pathExists (pyJoin path ".git".toList) = false) from by
      rw [hgit]; decide)]

/-- One non-whitespace character extends the token being accumulated. -/
theorem pySplitAux_nonspace_cons (c : Char) (acc cs : Str) (hc : isPySpace c = false) :
    pySplitAux acc (c :: cs) = pySplitAux (c :: acc) cs := by
  simp [pySplitAux, hc]

/-- A space flushes the accumulated token. -/
theorem pySplitAux_space (acc rest : Str) :
    pySplitAux acc (' ' :: rest) =
      if acc = [] then pySplitAux [] rest else acc.reverse :: pySplitAux [] rest := by
  simp [pySplitAux, isPySpace]

/-- A whitespace-free run is swallowed whole into the accumulator. -/
theorem pySplitAux_append_nonspace :
    ∀ (w acc rest : Str), (∀ c ∈ w, isPySpace c = false) →
      pySplitAux acc (w ++ rest) = pySplitAux (w.reverse ++ acc) rest
  | [], acc, rest, _ => by simp
  | c :: cs, acc, rest, h => by
    have hc : isPySpace c = false := h c (by simp)
    have hcs : ∀ d ∈ cs, isPySpace d = false := fun d hd => h d (by simp [hd])
    have ih := pySplitAux_append_nonspace cs (c :: acc) rest hcs
    rw [List.cons_append, pySplitAux_nonspace_cons c acc _ hc, ih]
    simp

/-- A non-empty whitespace-free string splits into the single token itself. -/
theorem pySplit_single_token (w : Str) (hne : w ≠ []) (h : ∀ c ∈ w, isPySpace c = false) :
    pySplitAux [] w = [w] := by
  have h2 := pySplitAux_append_nonspace w [] [] h
  rw [List.append_nil, List.append_nil] at h2
  rw [h2]
  simp [pySplitAux, hne]

/-- Escaping double quotes introduces no whitespace. -/
theorem escapeQuotes_nonspace :
    ∀ (s : Str), (∀ c ∈ s, isPySpace c = false) →
      ∀ c ∈ escapeQuotes s, isPySpace c = false
  | [], _ => by simp [escapeQuotes]
  | c :: cs, h => by
    have hc := h c (by simp)
    have hcs : ∀ d ∈ cs, isPySpace d = false := fun d hd => h d (by simp [hd])
    have ih := escapeQuotes_nonspace cs hcs
    intro d hd
    by_cases hq : c = '"'
    · simp [escapeQuotes, hq] at hd
      rcases hd with hd | hd | hd
      · subst hd; decide
      · subst hd; decide
      · exact ih d hd
    · simp [escapeQuotes, hq] at hd
      rcases hd with hd | hd
      · subst hd; exact hc
      · exact ih d hd

/-- How the executor's `args.split()` tokenizes `repo_search`'s argument
    string when the stripped search term contains no whitespace. -/
theorem repo_search_args_split (term : Str)
    (hterm : ∀ c ∈ pyStrip term, isPySpace c = false) :
    pySplit (repo_search_args term) =
      ["grep".toList, "-n".toList, '"' :: (escapeQuotes (pyStrip term) ++ ['"'])] := by
  have hE := escapeQuotes_nonspace (pyStrip term) hterm
  have htok : ∀ c ∈ ('"' :: (escapeQuotes (pyStrip term) ++ ['"'])), isPySpace c = false := by
    intro c hc
    rcases List.mem_cons.mp hc with hc | hc
    · subst hc; decide
    · rcases List.mem_append.mp hc with hc | hc
      · exact hE c hc
      · rcases List.mem_singleton.mp hc with hc
        subst hc; decide
  have h1 : repo_search_args term =
      "grep".toList ++ (' ' :: ("-n".toList ++ (' ' ::
        ('"' :: (escapeQuotes (pyStrip term) ++ ['"']))))) := rfl
  rw [pySplit, h1]
  rw [pySplitAux_append_nonspace "grep".toList [] _ (by decide), List.append_nil]
  rw [pySplitAux_space, if_neg (by decide)]
  rw [pySplitAux_append_nonspace "-n".toList [] _ (by decide), List.append_nil]
  rw [pySplitAux_space, if_neg (by decide)]
  rw [pySplit_single_token _ (by simp) htok]
  simp

/-- A blank string is not a Python integer literal. -/
theorem pyParseInt_of_strip_nil (s : Str) (h : pyStrip s = []) : pyParseInt s = none := by
  unfold pyParseInt
  rw [h]
  rfl

/-!
Claim theorems.
-/

/-- Claim C1 (counterexample): the repository name `/repos-evil;` contains the
    metacharacter `;`, yet `get_repo_path` (root `/repos`, symlink-free
    filesystem) accepts it and returns `/repos-evil`, which is not a descendant
    (not even descendant-or-equal) of the canonical root `/repos`: `pathlib`
    join discards the base for an absolute name, and the line-61 confinement
    check is a string-prefix test, so the sibling directory passes. -/
theorem C1_counterexample :
    "/repos-evil;".toList.any (fun c => metachars.contains c) = true ∧
    posixResolve (pyPathOfStr "/repos".toList) = some "/repos".toList ∧
    get_repo_path posixResolve "/repos".toList "/repos-evil;".toList = "/repos-evil".toList ∧
    "/repos-evil".toList ≠ ([] : Str) ∧
    isDescendantOf "/repos-evil".toList "/repos".toList = false := by
  refine ⟨by decide, by decide, by decide, by decide, by decide⟩

/-- Claim C1 (amended): for every repository name containing a shell
    metacharacter or a `..` substring, `get_repo_path` either rejects the name
    or returns a path whose string representation starts with the canonical
    root's string representation (string-prefix confinement only; the accepted
    path need not be a descendant of the root). -/
theorem C1_dangerous_names_confined (resolve : Str → Option Str) (base name : Str)
    (_hdanger : name.any (fun c => metachars.contains c) = true ∨
        containsDotDot name = true) :
    get_repo_path resolve base name = [] ∨
      ∃ bp, resolve (pyPathOfStr base) = some bp ∧
        bp.isPrefixOf (get_repo_path resolve base name) = true := by
  by_cases hrej : get_repo_path resolve base name = []
  · exact Or.inl hrej
  · exact Or.inr (get_repo_path_accept resolve base name hrej)

/-- Claim C1 (witness): the name `a;b` contains a metacharacter; instantiating
    the amended theorem at it, with root `/repos` on a symlink-free filesystem. -/
theorem C1_dangerous_names_confined_witness :
    get_repo_path posixResolve "/repos".toList "a;b".toList = [] ∨
      ∃ bp, posixResolve (pyPathOfStr "/repos".toList) = some bp ∧
        bp.isPrefixOf (get_repo_path posixResolve "/repos".toList "a;b".toList) = true :=
  C1_dangerous_names_confined posixResolve "/repos".toList "a;b".toList (Or.inl (by decide))

/-- Claim C2: for every repository name accepted by `get_repo_path` (non-empty
    result), the string representation of the resolved canonical path starts
    with the string representation of the canonicalized configured root —
    whatever canonicalization function the ambient filesystem induces. -/
theorem C2_accepted_starts_with_root (resolve : Str → Option Str) (base name : Str)
    (h : get_repo_path resolve base name ≠ []) :
    ∃ bp, resolve (pyPathOfStr base) = some bp ∧
      bp.isPrefixOf (get_repo_path resolve base name) = true :=
  get_repo_path_accept resolve base name h

/-- Claim C2 (witness): `myrepo` under root `/repos` is accepted and the
    resolved path `/repos/myrepo` starts with the canonical root `/repos`. -/
theorem C2_accepted_starts_with_root_witness :
    ∃ bp, posixResolve (pyPathOfStr "/repos".toList) = some bp ∧
      bp.isPrefixOf (get_repo_path posixResolve "/repos".toList "myrepo".toList) = true :=
  C2_accepted_starts_with_root posixResolve "/repos".toList "myrepo".toList (by decide)

/-- Claim C3 (counterexample): for the non-blank search term `a b`,
    `repo_search`'s argument string `grep -n "a b"` is split on whitespace by
    the executor (line 79), so the term reaches the process as the two tokens
    `"a` and `b"` (with literal quote characters), not as a single argument. -/
theorem C3_counterexample :
    pyStrip "a b".toList ≠ [] ∧
    repo_search_tokens "a b".toList =
      ["grep".toList, "-n".toList, ['"', 'a'], ['b', '"']] ∧
    (repo_search_tokens "a b".toList).length = 4 := by
  refine ⟨by decide, by decide, by decide⟩

/-- Claim C3 (amended): the search term is escaped only for embedded double
    quotes and interpolated into `grep -n "..."`; because the executor splits
    the argument string on whitespace, the escaped term reaches the spawned
    process as the single token `"term"` (with literal surrounding quote
    characters) only when the stripped term contains no whitespace; terms with
    internal whitespace are split into several tokens. -/
theorem C3_quoted_term_single_token (fs : FS) (path term : Str) (t : Nat)
    (rc : Int) (out err : Str)
    (hpath : path ≠ []) (hdir : fs.isDir path = true)
    (hgit : fs.pathExists (pyJoin path ".git".toList) = true)
    (_hne : pyStrip term ≠ [])
    (hterm : ∀ c ∈ pyStrip term, isPySpace c = false) :
    (run_git_command fs path (repo_search_args term) t (.completed rc out err)).2 =
      some ["git".toList, "-C".toList, path, "grep".toList, "-n".toList,
        '"' :: (escapeQuotes (pyStrip term) ++ ['"'])] := by
  have hsplit := repo_search_args_split term hterm
  rw [run_git_command_completed fs path (repo_search_args term) t rc out err hpath hdir hgit,
    hsplit]
  by_cases hrc : rc = 0
  · rw [if_pos hrc]
  · rw [if_neg hrc]

/-- Claim C3 (witness): the whitespace-free term `needle` arrives as the single
    token `"needle"` in the spawned argument vector. -/
theorem C3_quoted_term_single_token_witness :
    (run_git_command fsAllTrue "/repos/r".toList (repo_search_args "needle".toList) 30
        (.completed 0 "x".toList [])).2 =
      some ["git".toList, "-C".toList, "/repos/r".toList, "grep".toList, "-n".toList,
        '"' :: (escapeQuotes (pyStrip "needle".toList) ++ ['"'])] :=
  C3_quoted_term_single_token fsAllTrue "/repos/r".toList "needle".toList 30 0
    "x".toList [] (by decide) (by decide) (by decide) (by decide) (by decide)

/-- Claim C4 (counterexample): on a filesystem where nothing exists (hence no
    symlinks, so `Path.resolve(strict=False)` is purely lexical and
    `posixResolve` models it), `get_repo_path` still accepts `myrepo` and
    returns `/repos/myrepo`, which is not an existing directory and has no
    `.git` entry — the resolver checks neither condition (b) nor (c). -/
theorem C4_counterexample :
    get_repo_path posixResolve "/repos".toList "myrepo".toList = "/repos/myrepo".toList ∧
    "/repos/myrepo".toList ≠ ([] : Str) ∧
    fsAllFalse.isDir "/repos/myrepo".toList = false ∧
    fsAllFalse.pathExists (pyJoin "/repos/myrepo".toList ".git".toList) = false := by
  refine ⟨by decide, by decide, by decide, by decide⟩

/-- Claim C4 (amended): every accepted `get_repo_path` result satisfies only
    condition (a) in string-prefix form — it starts with the canonical root's
    string; being an existing directory with a `.git` entry is not checked by
    the resolver but re-verified by `run_git_command`, which spawns no process
    when either re-check fails. -/
theorem C4_resolver_guarantees (resolve : Str → Option Str) (base name : Str)
    (fs : FS) (args : Str) (t : Nat) (oc : GitOutcome)
    (h : get_repo_path resolve base name ≠ []) :
    (∃ bp, resolve (pyPathOfStr base) = some bp ∧
        bp.isPrefixOf (get_repo_path resolve base name) = true) ∧
    ((fs.isDir (get_repo_path resolve base name) = false ∨
        fs.pathExists (pyJoin (get_repo_path resolve base name) ".git".toList) = false) →
      (run_git_command fs (get_repo_path resolve base name) args t oc).2 = none) := by
  refine ⟨get_repo_path_accept resolve base name h, fun hfs => ?_⟩
  rcases hfs with hfs | hfs
  · exact (run_git_command_rejects fs _ args t oc (Or.inr (Or.inl hfs))).1
  · exact (run_git_command_rejects fs _ args t oc (Or.inr (Or.inr hfs))).1

/-- Claim C4 (witness): instantiated at `myrepo` under `/repos` with the
    all-false filesystem: the accepted path is prefix-confined, and the
    executor spawns nothing for it. -/
theorem C4_resolver_guarantees_witness :
    (∃ bp, posixResolve (pyPathOfStr "/repos".toList) = some bp ∧
        bp.isPrefixOf (get_repo_path posixResolve "/repos".toList "myrepo".toList) = true) ∧
    ((fsAllFalse.isDir (get_repo_path posixResolve "/repos".toList "myrepo".toList) = false ∨
        fsAllFalse.pathExists (pyJoin (get_repo_path posixResolve "/repos".toList "myrepo".toList)
          ".git".toList) = false) →
      (run_git_command fsAllFalse (get_repo_path posixResolve "/repos".toList "myrepo".toList)
          "status".toList 30 (.completed 0 [] [])).2 = none) :=
  C4_resolver_guarantees posixResolve "/repos".toList "myrepo".toList fsAllFalse
    "status".toList 30 (.completed 0 [] []) (by decide)

/-- Claim C5: whenever the entry precondition of `run_git_command` fails (empty
    path, not an existing directory, or no `.git` entry), it returns one of the
    structured "Invalid repository path" / "Not a git repository" errors and
    spawns no external process. -/
theorem C5_precondition_rejects (fs : FS) (repo_path args : Str) (t : Nat) (oc : GitOutcome)
    (h : repo_path = [] ∨ fs.isDir repo_path = false ∨
        fs.pathExists (pyJoin repo_path ".git".toList) = false) :
    (run_git_command fs repo_path args t oc).2 = none ∧
      ((run_git_command fs repo_path args t oc).1 =
          "❌ Error: Invalid repository path".toList ∨
        (run_git_command fs repo_path args t oc).1 =
          "❌ Error: Not a git repository".toList) :=
  run_git_command_rejects fs repo_path args t oc h

/-- Claim C5 (witness): on the all-false filesystem, `/x` is rejected without
    a spawn. -/
theorem C5_precondition_rejects_witness :
    (run_git_command fsAllFalse "/x".toList "status".toList 30 (.completed 0 [] [])).2 = none ∧
      ((run_git_command fsAllFalse "/x".toList "status".toList 30 (.completed 0 [] [])).1 =
          "❌ Error: Invalid repository path".toList ∨
        (run_git_command fsAllFalse "/x".toList "status".toList 30 (.completed 0 [] [])).1 =
          "❌ Error: Not a git repository".toList) :=
  C5_precondition_rejects fsAllFalse "/x".toList "status".toList 30
    (.completed 0 [] []) (by decide)

/-- Claim C6 (counterexample): exit status 0 with the non-empty (whitespace
    only) standard output `" "` does not return that output: the source tests
    `output.strip()`, so it returns the success sentinel instead. -/
theorem C6_counterexample :
    (run_git_command fsAllTrue "/repos/r".toList "status".toList 30
        (.completed 0 [' '] [])).1 = "✅ Command completed successfully".toList ∧
    ([' '] : Str) ≠ [] ∧
    "✅ Command completed successfully".toList ≠ ([' '] : Str) := by
  refine ⟨by decide, by decide, by decide⟩

/-- Claim C6 (amended): for a completed invocation, `run_git_command` reports
    standard output if it is non-empty and standard error otherwise, and
    classifies by exit status with blankness (not mere emptiness) deciding the
    sentinel: status 0 with reported text containing a non-whitespace character
    returns that text; status 0 with empty or whitespace-only text returns the
    success sentinel; non-zero status returns the degraded message carrying the
    status code and the (possibly truncated) text. (Length side conditions keep
    truncation, covered by C7, out of the equalities.) -/
theorem C6_exit_status_classification (fs : FS) (path args : Str) (t : Nat)
    (rc : Int) (out err : Str)
    (hpath : path ≠ []) (hdir : fs.isDir path = true)
    (hgit : fs.pathExists (pyJoin path ".git".toList) = true) :
    ((rc = 0 ∧ pyStrip (if out ≠ [] then out else err) = [] ∧
        (if out ≠ [] then out else err).length ≤ MAX_OUTPUT_LENGTH) →
      (run_git_command fs path args t (.completed rc out err)).1 =
        "✅ Command completed successfully".toList) ∧
    ((rc = 0 ∧ pyStrip out ≠ [] ∧ out.length ≤ MAX_OUTPUT_LENGTH) →
      (run_git_command fs path args t (.completed rc out err)).1 = out) ∧
    ((rc = 0 ∧ out = [] ∧ pyStrip err ≠ [] ∧ err.length ≤ MAX_OUTPUT_LENGTH) →
      (run_git_command fs path args t (.completed rc out err)).1 = err) ∧
    (rc ≠ 0 →
      (run_git_command fs path args t (.completed rc out err)).1 =
        "⚠️ Git command completed with status ".toList ++ (toString rc).toList
          ++ ":\n".toList ++ truncate_captured (if out ≠ [] then out else err)) := by
  have hrun := run_git_command_completed fs path args t rc out err hpath hdir hgit
  refine ⟨?_, ?_, ?_, ?_⟩
  · rintro ⟨hrc, hblank, hlen⟩
    subst hrc
    rw [hrun, if_pos rfl, truncate_captured_short _ hlen, hblank,
      if_neg (show ¬(([] : Str) ≠ []) from by decide)]
  · rintro ⟨hrc, hne, hlen⟩
    subst hrc
    have hout : out ≠ [] := ne_nil_of_pyStrip_ne_nil out hne
    rw [hrun, if_pos rfl, if_pos hout, truncate_captured_short out hlen, if_pos hne]
  · rintro ⟨hrc, hout, hne, hlen⟩
    subst hrc
    subst hout
    rw [hrun, if_pos rfl, if_neg (show ¬(([] : Str) ≠ []) from by decide),
      truncate_captured_short err hlen, if_pos hne]
  · intro hrc
    rw [hrun, if_neg hrc]

/-- Claim C6 (witness): status 0 with output `hi` returns `hi`. -/
theorem C6_exit_status_classification_witness :
    (run_git_command fsAllTrue "/repos/r".toList "status".toList 30
        (.completed 0 "hi".toList [])).1 = "hi".toList :=
  (C6_exit_status_classification fsAllTrue "/repos/r".toList "status".toList 30 0
      "hi".toList [] (by decide) (by decide) (by decide)).2.1
    ⟨rfl, by decide, by decide⟩

/-- Claim C7: captured output strictly longer than the 10,000-character cap is
    truncated to a prefix of exactly the cap length with a marker noting the
    original size appended; output at or below the cap is returned unmodified.
    Proved for both truncation sites: `truncate_output` (lines 104-108) and the
    inline bounding in `run_git_command` (lines 90-91, `truncate_captured`). -/
theorem C7_output_truncation (out : Str) :
    (out.length > MAX_OUTPUT_LENGTH →
      truncate_output out = out.take MAX_OUTPUT_LENGTH ++ truncatedFromMarker out.length ∧
      truncate_captured out = out.take MAX_OUTPUT_LENGTH ++ outputTruncMarker out.length ∧
      (out.take MAX_OUTPUT_LENGTH).length = MAX_OUTPUT_LENGTH ∧
      out.take MAX_OUTPUT_LENGTH <+: out) ∧
    (out.length ≤ MAX_OUTPUT_LENGTH →
      truncate_output out = out ∧ truncate_captured out = out) := by
  constructor
  · intro h
    refine ⟨by rw [truncate_output, if_pos h], by rw [truncate_captured, if_pos h], ?_, ?_⟩
    · rw [List.length_take]
      omega
    · exact ⟨out.drop MAX_OUTPUT_LENGTH, List.take_append_drop _ _⟩
  · intro h
    exact ⟨truncate_output_short out h, truncate_captured_short out h⟩

/-- Claim C7 (witness): a 10,001-character output is truncated to the
    10,000-character prefix with the size marker appended. -/
theorem C7_output_truncation_witness :
    truncate_output (List.replicate 10001 'a') =
      (List.replicate 10001 'a').take MAX_OUTPUT_LENGTH
        ++ truncatedFromMarker (List.replicate 10001 'a').length ∧
    truncate_captured (List.replicate 10001 'a') =
      (List.replicate 10001 'a').take MAX_OUTPUT_LENGTH
        ++ outputTruncMarker (List.replicate 10001 'a').length ∧
    ((List.replicate 10001 'a').take MAX_OUTPUT_LENGTH).length = MAX_OUTPUT_LENGTH ∧
    (List.replicate 10001 'a').take MAX_OUTPUT_LENGTH <+: List.replicate 10001 'a' :=
  (C7_output_truncation (List.replicate 10001 'a')).1
    (by rw [List.length_replicate]; decide)

/-- Claim C8: for `repo_log` and `repo_file_history`, a limit argument that is
    non-numeric (including blank) or whose numeric value lies outside [1,100]
    yields the effective limit 10, and the limit argument `50` yields 50. The
    effective limit is the `limit_int` interpolated into the `git log` argument
    strings (`repo_log_args`, `repo_file_history_args`). -/
theorem C8_limit_normalization (limit : Str) :
    (pyParseInt limit = none →
      repo_log_limit limit = 10 ∧ repo_file_history_limit limit = 10) ∧
    (∀ n : Int, pyParseInt limit = some n → (n < 1 ∨ 100 < n) →
      repo_log_limit limit = 10 ∧ repo_file_history_limit limit = 10) ∧
    (repo_log_limit "50".toList = 50 ∧ repo_file_history_limit "50".toList = 50) := by
  refine ⟨?_, ?_, by decide, by decide⟩
  · intro h
    by_cases hb : pyStrip limit = []
    · constructor <;> simp [repo_log_limit, repo_file_history_limit, hb]
    · constructor <;> simp [repo_log_limit, repo_file_history_limit, hb, h]
  · intro n h hr
    have hb : pyStrip limit ≠ [] := by
      intro hb
      rw [pyParseInt_of_strip_nil limit hb] at h
      exact Option.noConfusion h
    constructor <;>
      · simp only [repo_log_limit, repo_file_history_limit, if_neg hb, h]
        rw [if_pos hr]

/-- Claim C8 (witness): the non-numeric limit `abc` and the out-of-range limit
    `200` both normalize to 10 in both handlers. -/
theorem C8_limit_normalization_witness :
    (repo_log_limit "abc".toList = 10 ∧ repo_file_history_limit "abc".toList = 10) ∧
    (repo_log_limit "200".toList = 10 ∧ repo_file_history_limit "200".toList = 10) :=
  ⟨(C8_limit_normalization "abc".toList).1 (by decide),
   (C8_limit_normalization "200".toList).2.1 200 (by decide) (by decide)⟩

/-- Claim C9: whenever the repository name is non-blank and accepted, and the
    accepted path passes the executor's re-checks, `repo_show_commit` with hash
    `abc123!!` filters it to its hexadecimal characters and invokes git as
    `git -C <path> show abc123`; with hash `!!!` (nothing survives the filter)
    it replies with the invalid-format error and spawns no process. -/
theorem C9_hash_filtering (resolve : Str → Option Str) (base : Str) (fs : FS)
    (rc : Int) (out err : Str) (repo_name : Str)
    (hname : pyStrip repo_name ≠ [])
    (hp : get_repo_path resolve base repo_name ≠ [])
    (hdir : fs.isDir (get_repo_path resolve base repo_name) = true)
    (hgit : fs.pathExists (pyJoin (get_repo_path resolve base repo_name) ".git".toList) = true) :
    (repo_show_commit resolve base fs (.completed rc out err)
        repo_name "abc123!!".toList).2 =
      some ["git".toList, "-C".toList, get_repo_path resolve base repo_name,
        "show".toList, "abc123".toList] ∧
    repo_show_commit resolve base fs (.completed rc out err) repo_name "!!!".toList =
      ("❌ Error: Invalid commit hash format".toList, none) := by
  have hrun := run_git_command_completed fs (get_repo_path resolve base repo_name)
    ("show ".toList ++ "abc123".toList) GIT_TIMEOUT rc out err hp hdir hgit
  constructor
  · unfold repo_show_commit
    rw [if_neg hname,
      if_neg (show ¬pyStrip "abc123!!".toList = [] from by decide),
      if_neg hp,
      if_neg (show ¬(pyStrip "abc123!!".toList).filter isHexChar = [] from by decide)]
    have hfilter : (pyStrip "abc123!!".toList).filter isHexChar = "abc123".toList := by decide
    have hsplit : pySplit ("show ".toList ++ "abc123".toList) =
        ["show".toList, "abc123".toList] := by decide
    rw [hfilter]
    dsimp only
    rw [hrun]
    by_cases hrc : rc = 0
    · rw [if_pos hrc, hsplit]
    · rw [if_neg hrc, hsplit]
  · unfold repo_show_commit
    rw [if_neg hname,
      if_neg (show ¬pyStrip "!!!".toList = [] from by decide),
      if_neg hp,
      if_pos (show (pyStrip "!!!".toList).filter isHexChar = [] from by decide)]

/-- Claim C9 (witness): instantiated at `myrepo` under root `/repos` on the
    all-true filesystem with a completed invocation. -/
theorem C9_hash_filtering_witness :
    (repo_show_commit posixResolve "/repos".toList fsAllTrue (.completed 0 "x".toList [])
        "myrepo".toList "abc123!!".toList).2 =
      some ["git".toList, "-C".toList,
        get_repo_path posixResolve "/repos".toList "myrepo".toList,
        "show".toList, "abc123".toList] ∧
    repo_show_commit posixResolve "/repos".toList fsAllTrue (.completed 0 "x".toList [])
        "myrepo".toList "!!!".toList =
      ("❌ Error: Invalid commit hash format".toList, none) :=
  C9_hash_filtering posixResolve "/repos".toList fsAllTrue 0 "x".toList []
    "myrepo".toList (by decide) (by decide) (by decide) (by decide)

/-- Claim C10: the non-empty repository names `.` and `...` (which sanitizes to
    `.`) are both accepted by `get_repo_path` (root `/repos`, symlink-free
    filesystem) and return the canonical configured root directory itself: the
    string-prefix confinement check passes on equality, so the accepted path is
    not a proper descendant of the root. -/
theorem C10_dot_returns_root :
    get_repo_path posixResolve "/repos".toList ".".toList = "/repos".toList ∧
    get_repo_path posixResolve "/repos".toList "...".toList = "/repos".toList ∧
    sanitize_path "...".toList = ['.'] ∧
    posixResolve (pyPathOfStr "/repos".toList) = some "/repos".toList ∧
    "/repos".toList ≠ ([] : Str) := by
  refine ⟨by decide, by decide, by decide, by decide, by decide⟩
